import Mathlib

/-!
Shallow embedding of the `se-logger` crate (src/lib.rs): a minimal
process-wide logging facility.  Process-wide state (two environment
variables) is modelled as an explicit `LogState`; the file system as an
association list from paths to contents; stdout as an accumulated string.
Ambient facts of a call (current local time, current thread name, which
paths fail to open, whether the write fails) are gathered in a `World`
parameter.
-/

namespace SeLogger

/-- A local calendar time, as far as the strftime specifiers used here need. -/
structure Time where
  year : Nat
  month : Nat
  day : Nat
  hour : Nat
  minute : Nat
  second : Nat
  deriving DecidableEq

/-- Ambient facts of one call: the current local time, the current thread's
name (`none` models an unnamed thread), the set of paths whose open fails,
whether the file write fails, and the rendered I/O error messages. -/
structure World where
  time : Time
  threadName : Option String
  failingPaths : List String
  writeFails : Bool
  openErr : String
  writeErr : String
  deriving DecidableEq

/-- The process-wide state: the two environment variables `SE_LOG_PATH` and
`SE_LOG_LEVEL` (`none` = unset), the file system, and everything printed to
stdout so far. -/
structure LogState where
  envPath : Option String
  envLevel : Option String
  files : List (String × String)
  stdout : String
  deriving DecidableEq

/-- Rust `pub const TRACE: u32 = 5;` -/
def TRACE : Nat := 5
/-- Rust `pub const DEBUG: u32 = 4;` -/
def DEBUG : Nat := 4
/-- Rust `pub const INFO: u32 = 3;` -/
def INFO : Nat := 3
/-- Rust `pub const WARNING: u32 = 2;` -/
def WARNING : Nat := 2
/-- Rust `pub const ERROR: u32 = 1;` -/
def ERROR : Nat := 1
/-- Rust `pub const FATAL: u32 = 0;` -/
def FATAL : Nat := 0

/-- Zero-pad a number to two decimal digits, as chrono's `%H`/`%M`/`%S` do. -/
def pad2 (n : Nat) : String :=
  if n < 10 then "0" ++ Nat.repr n else Nat.repr n

/-- Zero-pad a number to four decimal digits, as chrono's `%Y` does. -/
def pad4 (n : Nat) : String :=
  if n < 10 then "000" ++ Nat.repr n
  else if n < 100 then "00" ++ Nat.repr n
  else if n < 1000 then "0" ++ Nat.repr n
  else Nat.repr n

/-- Modelled from the spec: expansion of a single strftime specifier against
a time, per the chrono strftime table the source's doc comment links to
(the formatter itself lives in the external chrono crate, not in this
repository).  Covers the specifiers the source and spec mention. -/
def expandSpec (t : Time) : Char → List Char
  | 'H' => (pad2 t.hour).data
  | 'M' => (pad2 t.minute).data
  | 'S' => (pad2 t.second).data
  | 'T' => (pad2 t.hour).data ++ ':' :: (pad2 t.minute).data ++ ':' :: (pad2 t.second).data
  | 'Y' => (pad4 t.year).data
  | 'm' => (pad2 t.month).data
  | 'd' => (pad2 t.day).data
  | 'F' => (pad4 t.year).data ++ '-' :: (pad2 t.month).data ++ '-' :: (pad2 t.day).data
  | '%' => ['%']
  | c => ['%', c]

/-- Modelled from the spec: strftime expansion over a character list.
Literal characters (anything but `%`) pass through unchanged; `%c` expands
via `expandSpec`. -/
def strfAux (t : Time) : List Char → List Char
  | [] => []
  | c :: rest =>
    if c = '%' then
      match rest with
      | [] => [c]
      | c2 :: rest2 => expandSpec t c2 ++ strfAux t rest2
    else c :: strfAux t rest

/-- Modelled from the spec: strftime expansion of a pattern string against
a time. -/
def strftime (fmt : String) (t : Time) : String :=
  ⟨strfAux t fmt.data⟩

/-- Rust `fn current_time_fmt(fmt: &str) -> String`: formats the current local
time (here `w.time`) according to `fmt`. -/
def current_time_fmt (w : World) (fmt : String) : String :=
  strftime fmt w.time

/-- Rust `str::parse::<u32>()`: optional leading `+`, then one or more
decimal digits, value within `u32` range; anything else is `Err`. -/
def parseU32 (s : String) : Option Nat :=
  let cs := match s.data with
    | '+' :: rest => rest
    | cs => cs
  if cs.isEmpty then none
  else if cs.all Char.isDigit then
    let v := cs.foldl (fun a c => a * 10 + (c.toNat - 48)) 0
    if v ≤ 4294967295 then some v else none
  else none

/-- Rust `fn get_log_level() -> u32`: read `SE_LOG_LEVEL`; on unset or
unparseable value, default to `INFO`. -/
def get_log_level (st : LogState) : Nat :=
  match st.envLevel with
  | some s =>
    match parseU32 s with
    | some v => v
    | none => INFO
  | none => INFO

/-- Rust `fn set_log_level(level: u32)`: store the level only when
`FATAL <= level && level <= TRACE` (for `u32`, `level >= FATAL` always
holds); otherwise leave the variable untouched. -/
def set_log_level (st : LogState) (level : Nat) : LogState :=
  if FATAL ≤ level ∧ level ≤ TRACE then
    { st with envLevel := some (Nat.repr level) }
  else st

/-- Rust `fn get_log_path() -> String`: read `SE_LOG_PATH`, defaulting to
`"unnamed.log"` when unset. -/
def get_log_path (st : LogState) : String :=
  match st.envPath with
  | some s => s
  | none => "unnamed.log"

/-- Rust `fn set_log_path(path: &str)`: store the path unconditionally. -/
def set_log_path (st : LogState) (path : String) : LogState :=
  { st with envPath := some path }

/-- Rust `pub fn init(path: &str, level: u32)`: expand the pattern against the
current local time, store the path, then store the level. -/
def init (w : World) (st : LogState) (path : String) (level : Nat) : LogState :=
  set_log_level (set_log_path st (current_time_fmt w path)) level

/-- Rust `println!`: append the text and a newline to stdout. -/
def println (st : LogState) (s : String) : LogState :=
  { st with stdout := st.stdout ++ (s ++ "\n") }

/-- Association-list lookup of a file's content by path. -/
def lookupFile : List (String × String) → String → Option String
  | [], _ => none
  | (p, c) :: rest, q => if p = q then some c else lookupFile rest q

/-- Rust `OpenOptions::new().append(true).create(true).open(path)` on success:
create the file (empty) when absent, otherwise leave the file system as is. -/
def openCreate (fs : List (String × String)) (p : String) : List (String × String) :=
  match lookupFile fs p with
  | some _ => fs
  | none => (p, "") :: fs

/-- A successful append-mode `write`: append the bytes to the named file. -/
def writeApp : List (String × String) → String → String → List (String × String)
  | [], _, _ => []
  | (q, c) :: rest, p, s =>
    if q = p then (q, c ++ s) :: writeApp rest p s
    else (q, c) :: writeApp rest p s

/-- Content of the file at `p` (empty when the file does not exist). -/
def fileContent (st : LogState) (p : String) : String :=
  match lookupFile st.files p with
  | some c => c
  | none => ""

/-- Rust `pub fn log(message: &str)`: print the message to stdout; open the
configured file in append/create mode — on failure print a diagnostic and
return; write `message + "\n"` — on failure print a diagnostic and return. -/
def log (w : World) (st : LogState) (message : String) : LogState :=
  if get_log_path st ∈ w.failingPaths then
    println (println st message) ("Logger: Failed to open file: " ++ w.openErr)
  else if w.writeFails then
    println { println st message with files := openCreate st.files (get_log_path st) }
      ("Logger: Failed to write to file: " ++ w.writeErr)
  else
    { println st message with
        files := writeApp (openCreate st.files (get_log_path st)) (get_log_path st)
          (message ++ "\n") }

/-- Rust `fn level_to_string(level: u32) -> String`. -/
def level_to_string (level : Nat) : String :=
  match level with
  | 5 => "TRACE"
  | 4 => "DEBUG"
  | 3 => "INFO"
  | 2 => "WARNING"
  | 1 => "ERROR"
  | 0 => "FATAL"
  | _ => ""

/-- Rust `std::thread::current().name()` with the source's
`None => "unnamed thread"` fallback. -/
def currentThreadName (w : World) : String :=
  match w.threadName with
  | some s => s
  | none => "unnamed thread"

/-- The record `format!("[{}] [{}] [{}] {}", current_time_fmt("%T"),
level_to_string(level), thread-name, message)` built by `log_with_level`. -/
def record (w : World) (level : Nat) (message : String) : String :=
  "[" ++ current_time_fmt w "%T" ++ "] [" ++ level_to_string level ++ "] ["
    ++ currentThreadName w ++ "] " ++ message

/-- Rust `fn log_with_level(message: &str, level: u32)`: emit through `log`
exactly when `get_log_level() >= level`. -/
def log_with_level (w : World) (st : LogState) (message : String) (level : Nat) :
    LogState :=
  if get_log_level st ≥ level then log w st (record w level message) else st

/-- Rust `pub fn trace(message: &str)`. -/
def trace (w : World) (st : LogState) (message : String) : LogState :=
  log_with_level w st message TRACE

/-- Rust `pub fn debug(message: &str)`. -/
def debug (w : World) (st : LogState) (message : String) : LogState :=
  log_with_level w st message DEBUG

/-- Rust `pub fn info(message: &str)`. -/
def info (w : World) (st : LogState) (message : String) : LogState :=
  log_with_level w st message INFO

/-- Rust `pub fn warning(message: &str)`. -/
def warning (w : World) (st : LogState) (message : String) : LogState :=
  log_with_level w st message WARNING

/-- Rust `pub fn error(message: &str)`. -/
def error (w : World) (st : LogState) (message : String) : LogState :=
  log_with_level w st message ERROR

/-- Rust `pub fn fatal(message: &str)`. -/
def fatal (w : World) (st : LogState) (message : String) : LogState :=
  log_with_level w st message FATAL

/-- One invocation of a public operation of the crate. -/
inductive Call where
  | initCall (path : String) (level : Nat)
  | logCall (message : String)
  | traceCall (message : String)
  | debugCall (message : String)
  | infoCall (message : String)
  | warningCall (message : String)
  | errorCall (message : String)
  | fatalCall (message : String)
  deriving DecidableEq

/-- Dispatch one public call against the state. -/
def step (w : World) (st : LogState) : Call → LogState
  | .initCall p l => init w st p l
  | .logCall m => log w st m
  | .traceCall m => trace w st m
  | .debugCall m => debug w st m
  | .infoCall m => info w st m
  | .warningCall m => warning w st m
  | .errorCall m => error w st m
  | .fatalCall m => fatal w st m

/-- Number of newline characters in a string (its count of complete lines,
since every write of this logger ends in a newline). -/
def countNL (s : String) : Nat :=
  s.data.count '\n'

/-- A string of exactly two decimal digits (the `\d{2}` of the spec's
regular expression). -/
def twoDigitStr (s : String) : Prop :=
  s.length = 2 ∧ ∀ c ∈ s.data, c.isDigit = true

/-- The spec's regular expression
`^\[\d{2}:\d{2}:\d{2}\] \[INFO\] \[.*\] hello$` as a match relation on one
line (`.*` matches any characters except a newline). -/
def matchesInfoHello (line : String) : Prop :=
  ∃ hh mm ss mid : String,
    twoDigitStr hh ∧ twoDigitStr mm ∧ twoDigitStr ss ∧ '\n' ∉ mid.data ∧
    line = "[" ++ hh ++ ":" ++ mm ++ ":" ++ ss ++ "] [INFO] [" ++ mid ++ "] hello"

/-- Run a sequence of leveled calls `(world, level, message)` left to
right. -/
def runCalls (st : LogState) : List (World × Nat × String) → LogState
  | [] => st
  | x :: rest => runCalls (log_with_level x.1 st x.2.2 x.2.1) rest

/-- The text such a sequence of calls appends: one record plus newline per
call, in call order. -/
def chunkOf : List (World × Nat × String) → String
  | [] => ""
  | x :: rest => (record x.1 x.2.1 x.2.2 ++ "\n") ++ chunkOf rest

/-- A sample local time for concrete evaluations. -/
def sampleTime : Time :=
  ⟨2022, 9, 2, 6, 27, 44⟩

/-- A sample world where all I/O succeeds, from a thread named `main`. -/
def sampleWorld : World :=
  ⟨sampleTime, some "main", [], false, "", ""⟩

/-- A sample world where opening `a.log` fails. -/
def failWorld : World :=
  ⟨sampleTime, some "main", ["a.log"], false, "no such directory", ""⟩

/-- A sample configured state: path `a.log`, level `3` (INFO). -/
def sampleState : LogState :=
  ⟨some "a.log", some "3", [], ""⟩

/-- The pristine state: nothing configured, no files, nothing printed. -/
def emptyState : LogState :=
  ⟨none, none, [], ""⟩

/-! ## Basic lemmas about the embedding -/

theorem log_open_fail (w : World) (st : LogState) (m : String)
    (h : get_log_path st ∈ w.failingPaths) :
    log w st m
      = println (println st m) ("Logger: Failed to open file: " ++ w.openErr) := by
  unfold log
  rw [if_pos h]

theorem log_write_fail (w : World) (st : LogState) (m : String)
    (h1 : get_log_path st ∉ w.failingPaths) (h2 : w.writeFails = true) :
    log w st m
      = println { println st m with files := openCreate st.files (get_log_path st) }
          ("Logger: Failed to write to file: " ++ w.writeErr) := by
  unfold log
  rw [if_neg h1, if_pos h2]

theorem log_success (w : World) (st : LogState) (m : String)
    (h1 : get_log_path st ∉ w.failingPaths) (h2 : w.writeFails = false) :
    log w st m
      = { println st m with
            files := writeApp (openCreate st.files (get_log_path st)) (get_log_path st)
              (m ++ "\n") } := by
  unfold log
  rw [if_neg h1, if_neg (by simp [h2])]

theorem log_envPath (w : World) (st : LogState) (m : String) :
    (log w st m).envPath = st.envPath := by
  unfold log
  split
  · rfl
  · split <;> rfl

theorem log_envLevel (w : World) (st : LogState) (m : String) :
    (log w st m).envLevel = st.envLevel := by
  unfold log
  split
  · rfl
  · split <;> rfl

theorem get_log_path_log (w : World) (st : LogState) (m : String) :
    get_log_path (log w st m) = get_log_path st := by
  unfold get_log_path
  rw [log_envPath]

theorem get_log_level_log (w : World) (st : LogState) (m : String) :
    get_log_level (log w st m) = get_log_level st := by
  unfold get_log_level
  rw [log_envLevel]

theorem log_stdout_longer (w : World) (st : LogState) (m : String) :
    st.stdout.length < (log w st m).stdout.length := by
  have hnl : ("\n" : String).length = 1 := rfl
  unfold log
  split
  · simp only [println, String.length_append, hnl]
    omega
  · split
    · simp only [println, String.length_append, hnl]
      omega
    · simp only [println, String.length_append, hnl]
      omega

theorem lookup_writeApp (fs : List (String × String)) (p s : String) :
    lookupFile (writeApp fs p s) p = (lookupFile fs p).map (fun c => c ++ s) := by
  induction fs with
  | nil => rfl
  | cons e rest ih =>
    obtain ⟨q, c⟩ := e
    by_cases h : q = p
    · subst h
      simp [writeApp, lookupFile]
    · simp [writeApp, lookupFile, h, ih]

theorem lookup_openCreate (fs : List (String × String)) (p : String) :
    lookupFile (openCreate fs p) p = some ((lookupFile fs p).getD "") := by
  cases h : lookupFile fs p with
  | some c => simp [openCreate, h]
  | none => simp [openCreate, h, lookupFile]

theorem fileContent_getD (st : LogState) (p : String) :
    fileContent st p = (lookupFile st.files p).getD "" := by
  unfold fileContent
  cases lookupFile st.files p <;> rfl

theorem fileContent_log_success (w : World) (st : LogState) (m : String)
    (h1 : get_log_path st ∉ w.failingPaths) (h2 : w.writeFails = false) :
    fileContent (log w st m) (get_log_path st)
      = fileContent st (get_log_path st) ++ (m ++ "\n") := by
  rw [log_success w st m h1 h2, fileContent_getD, fileContent_getD]
  show (lookupFile
      (writeApp (openCreate st.files (get_log_path st)) (get_log_path st) (m ++ "\n"))
      (get_log_path st)).getD "" = _
  rw [lookup_writeApp, lookup_openCreate]
  cases lookupFile st.files (get_log_path st) <;> simp

theorem countNL_append (a b : String) :
    countNL (a ++ b) = countNL a + countNL b := by
  unfold countNL
  rw [String.data_append, List.count_append]

theorem countNL_level_to_string (lvl : Nat) :
    countNL (level_to_string lvl) = 0 := by
  unfold level_to_string
  split <;> decide

theorem pad2_twoDigit (n : Nat) (h : n < 100) : twoDigitStr (pad2 n) := by
  interval_cases n <;> exact ⟨by decide, by decide⟩

theorem pad2_no_nl (n : Nat) (h : n < 100) : countNL (pad2 n) = 0 := by
  interval_cases n <;> decide

theorem timeT_eq (w : World) :
    current_time_fmt w "%T"
      = pad2 w.time.hour ++ ":" ++ pad2 w.time.minute ++ ":" ++ pad2 w.time.second := by
  apply String.ext
  have h1 : (current_time_fmt w "%T").data
      = ((pad2 w.time.hour).data ++ ':' :: (pad2 w.time.minute).data
          ++ ':' :: (pad2 w.time.second).data) ++ [] := rfl
  rw [h1]
  simp [String.data_append, List.append_assoc]

theorem countNL_record (w : World) (lvl : Nat) (msg : String)
    (hh : w.time.hour < 100) (hm : w.time.minute < 100) (hs : w.time.second < 100)
    (hth : countNL (currentThreadName w) = 0) (hmsg : countNL msg = 0) :
    countNL (record w lvl msg) = 0 := by
  unfold record
  rw [timeT_eq]
  simp only [countNL_append, pad2_no_nl _ hh, pad2_no_nl _ hm, pad2_no_nl _ hs, hth,
    hmsg, countNL_level_to_string]
  decide

/-! ## The claims -/

/-- C1: a leveled logging call at severity `s` delegates to `log` (emits its
message) if and only if `s` is at most the configured threshold
`t = get_log_level`. -/
theorem c1_severity_gate (w : World) (st : LogState) (m : String) (s t : Nat)
    (hs : s ≤ 5) (ht : get_log_level st = t) :
    log_with_level w st m s = log w st (record w s m) ↔ s ≤ t := by
  subst ht
  unfold log_with_level
  constructor
  · intro hEq
    by_contra hgt
    rw [if_neg (fun hge => hgt hge)] at hEq
    have hlen := congrArg (fun x => x.stdout.length) hEq
    dsimp only at hlen
    have := log_stdout_longer w st (record w s m)
    omega
  · intro hle
    rw [if_pos hle]

/-- Witness for C1 at severity `WARNING = 2` against threshold `INFO = 3`. -/
theorem c1_severity_gate_witness :
    (2 ≤ 5) ∧ get_log_level sampleState = 3
      ∧ (log_with_level sampleWorld sampleState "x" 2
          = log sampleWorld sampleState (record sampleWorld 2 "x") ↔ 2 ≤ 3) :=
  ⟨by decide, by decide, c1_severity_gate sampleWorld sampleState "x" 2 3 (by decide)
    (by decide)⟩

/-- C2: `init` with a level outside `0..=5` leaves the stored level — and
the level read back by the logging path — unchanged. -/
theorem c2_out_of_range_level (w : World) (st : LogState) (p : String) (level : Nat)
    (h : ¬ level ≤ 5) :
    (init w st p level).envLevel = st.envLevel
      ∧ get_log_level (init w st p level) = get_log_level st := by
  have he : (init w st p level).envLevel = st.envLevel := by
    unfold init set_log_level
    rw [if_neg (by rintro ⟨-, h2⟩; exact h h2)]
    rfl
  refine ⟨he, ?_⟩
  unfold get_log_level
  rw [he]

/-- Witness for C2 at the out-of-range level `6`. -/
theorem c2_out_of_range_level_witness :
    ¬ (6 : Nat) ≤ 5
      ∧ ((init sampleWorld sampleState "b.log" 6).envLevel = sampleState.envLevel
          ∧ get_log_level (init sampleWorld sampleState "b.log" 6)
            = get_log_level sampleState) :=
  ⟨by decide, c2_out_of_range_level sampleWorld sampleState "b.log" 6 (by decide)⟩

/-- C4: with the configuration unset, the path reads back as
`"unnamed.log"` and the level as `INFO`; a stored but unparseable level
also reads back as `INFO`. -/
theorem c4_defaults (fs : List (String × String)) (out s : String)
    (hs : parseU32 s = none) :
    get_log_path ⟨none, none, fs, out⟩ = "unnamed.log"
      ∧ get_log_level ⟨none, none, fs, out⟩ = INFO
      ∧ get_log_level ⟨none, some s, fs, out⟩ = INFO := by
  refine ⟨rfl, rfl, ?_⟩
  simp [get_log_level, hs]

/-- Witness for C4 with the unparseable stored level `"high"`. -/
theorem c4_defaults_witness :
    parseU32 "high" = none
      ∧ (get_log_path ⟨none, none, [], ""⟩ = "unnamed.log"
          ∧ get_log_level ⟨none, none, [], ""⟩ = INFO
          ∧ get_log_level ⟨none, some "high", [], ""⟩ = INFO) :=
  ⟨by decide, c4_defaults [] "" "high" (by decide)⟩

/-- C9: for levels in `0..=5`, storing the level as a decimal string and
re-parsing it on read is the identity: right after `init`, the threshold
read back equals the level passed in. -/
theorem c9_level_round_trip (w : World) (st : LogState) (p : String) (level : Nat)
    (h : level ≤ 5) :
    get_log_level (init w st p level) = level := by
  unfold init set_log_level set_log_path get_log_level
  interval_cases level <;> rfl

/-- Witness for C9 at level `TRACE = 5`. -/
theorem c9_level_round_trip_witness :
    (5 : Nat) ≤ 5 ∧ get_log_level (init sampleWorld sampleState "c.log" 5) = 5 :=
  ⟨by decide, c9_level_round_trip sampleWorld sampleState "c.log" 5 (by decide)⟩

/-- C10: `fatal` always delegates to `log` — `FATAL = 0` passes every
threshold the logging path can read, so a fatal message is never filtered
out. -/
theorem c10_fatal_always_emits (w : World) (st : LogState) (m : String) :
    fatal w st m = log w st (record w FATAL m) := by
  unfold fatal log_with_level
  exact if_pos (Nat.zero_le _)

theorem strfAux_id (t : Time) (cs : List Char) (h : '%' ∉ cs) :
    strfAux t cs = cs := by
  induction cs with
  | nil => rfl
  | cons c rest ih =>
    have hc : c ≠ '%' := fun hc => h (hc ▸ List.mem_cons_self c rest)
    have hr : '%' ∉ rest := fun hm => h (List.mem_cons_of_mem c hm)
    rw [strfAux.eq_def]
    dsimp only
    rw [if_neg hc, ih hr]

theorem init_envPath (w : World) (st : LogState) (p : String) (level : Nat) :
    (init w st p level).envPath = some (current_time_fmt w p) := by
  unfold init set_log_level
  split <;> rfl

theorem init_stdout (w : World) (st : LogState) (p : String) (level : Nat) :
    (init w st p level).stdout = st.stdout := by
  unfold init set_log_level
  split <;> rfl

theorem get_log_level_init (w : World) (st : LogState) (p : String) (level : Nat)
    (h : level ≤ 5) : get_log_level (init w st p level) = level := by
  unfold init set_log_level set_log_path get_log_level
  interval_cases level <;> rfl

theorem log_stdout_extends (w : World) (st : LogState) (m : String) :
    ∃ e : String, (log w st m).stdout = st.stdout ++ e := by
  unfold log
  split
  · refine ⟨(m ++ "\n") ++ (("Logger: Failed to open file: " ++ w.openErr) ++ "\n"), ?_⟩
    show (st.stdout ++ (m ++ "\n"))
        ++ (("Logger: Failed to open file: " ++ w.openErr) ++ "\n") = _
    rw [String.append_assoc]
  · split
    · refine ⟨(m ++ "\n") ++ (("Logger: Failed to write to file: " ++ w.writeErr) ++ "\n"), ?_⟩
      show (st.stdout ++ (m ++ "\n"))
          ++ (("Logger: Failed to write to file: " ++ w.writeErr) ++ "\n") = _
      rw [String.append_assoc]
    · exact ⟨m ++ "\n", rfl⟩

theorem log_with_level_stdout_extends (w : World) (st : LogState) (m : String)
    (lvl : Nat) :
    ∃ e : String, (log_with_level w st m lvl).stdout = st.stdout ++ e := by
  unfold log_with_level
  split
  · exact log_stdout_extends w st (record w lvl m)
  · exact ⟨"", (String.append_empty _).symm⟩

/-- C5: when opening the configured file fails, `log` only prints the
message and a diagnostic to stdout: the file system and the configuration
are unchanged and the call returns normally, so a subsequent call whose
open succeeds appends normally. -/
theorem c5_open_failure (w w' : World) (st : LogState) (m m' : String)
    (hfail : get_log_path st ∈ w.failingPaths)
    (hok : get_log_path st ∉ w'.failingPaths)
    (hwr : w'.writeFails = false) :
    (log w st m).files = st.files
      ∧ (log w st m).envPath = st.envPath
      ∧ (log w st m).envLevel = st.envLevel
      ∧ (log w st m).stdout
          = st.stdout ++ (m ++ "\n") ++ ("Logger: Failed to open file: " ++ w.openErr ++ "\n")
      ∧ fileContent (log w' (log w st m) m') (get_log_path st)
          = fileContent st (get_log_path st) ++ (m' ++ "\n") := by
  have h1 := log_open_fail w st m hfail
  have hfiles : (log w st m).files = st.files := by rw [h1]; rfl
  refine ⟨hfiles, log_envPath w st m, log_envLevel w st m, by rw [h1]; rfl, ?_⟩
  have hpath2 : get_log_path (log w st m) = get_log_path st := get_log_path_log w st m
  have h2 := fileContent_log_success w' (log w st m) m' (by rw [hpath2]; exact hok) hwr
  rw [hpath2] at h2
  rw [h2, fileContent_getD (log w st m), fileContent_getD st, hfiles]

/-- Witness for C5: open of `a.log` fails in `failWorld`, then succeeds in
`sampleWorld`. -/
theorem c5_open_failure_witness :
    get_log_path sampleState ∈ failWorld.failingPaths
      ∧ get_log_path sampleState ∉ sampleWorld.failingPaths
      ∧ sampleWorld.writeFails = false
      ∧ ((log failWorld sampleState "hi").files = sampleState.files
          ∧ (log failWorld sampleState "hi").envPath = sampleState.envPath
          ∧ (log failWorld sampleState "hi").envLevel = sampleState.envLevel
          ∧ (log failWorld sampleState "hi").stdout
              = sampleState.stdout ++ ("hi" ++ "\n")
                ++ ("Logger: Failed to open file: " ++ failWorld.openErr ++ "\n")
          ∧ fileContent (log sampleWorld (log failWorld sampleState "hi") "ho")
                (get_log_path sampleState)
              = fileContent sampleState (get_log_path sampleState) ++ ("ho" ++ "\n")) :=
  ⟨by decide, by decide, by decide,
    c5_open_failure failWorld sampleWorld sampleState "hi" "ho" (by decide) (by decide)
      (by decide)⟩

/-- C7: a pattern without `%` expands to itself, so `init` stores the
literal pattern string as the log path. -/
theorem c7_literal_pattern (w : World) (st : LogState) (p : String) (level : Nat)
    (hp : '%' ∉ p.data) :
    current_time_fmt w p = p ∧ (init w st p level).envPath = some p := by
  have hip : current_time_fmt w p = p := by
    unfold current_time_fmt strftime
    rw [strfAux_id w.time p.data hp]
  exact ⟨hip, by rw [init_envPath, hip]⟩

/-- Witness for C7 with the specifier-free pattern `plainname.log`. -/
theorem c7_literal_pattern_witness :
    '%' ∉ ("plainname.log" : String).data
      ∧ (current_time_fmt sampleWorld "plainname.log" = "plainname.log"
          ∧ (init sampleWorld sampleState "plainname.log" 3).envPath
            = some "plainname.log") :=
  ⟨by decide, c7_literal_pattern sampleWorld sampleState "plainname.log" 3 (by decide)⟩

/-- C8: every public operation, under every I/O failure mode, returns
normally with a state: its only action on the console is to append output
(the message and possibly a diagnostic); no error or panic escapes to the
caller. -/
theorem c8_no_propagation (w : World) (st : LogState) (c : Call) :
    ∃ extra : String, (step w st c).stdout = st.stdout ++ extra := by
  cases c with
  | initCall p l =>
    exact ⟨"", by
      show (init w st p l).stdout = st.stdout ++ ""
      rw [init_stdout, String.append_empty]⟩
  | logCall m => exact log_stdout_extends w st m
  | traceCall m => exact log_with_level_stdout_extends w st m TRACE
  | debugCall m => exact log_with_level_stdout_extends w st m DEBUG
  | infoCall m => exact log_with_level_stdout_extends w st m INFO
  | warningCall m => exact log_with_level_stdout_extends w st m WARNING
  | errorCall m => exact log_with_level_stdout_extends w st m ERROR
  | fatalCall m => exact log_with_level_stdout_extends w st m FATAL

theorem log_stdout_success (w : World) (st : LogState) (m : String)
    (h1 : get_log_path st ∉ w.failingPaths) (h2 : w.writeFails = false) :
    (log w st m).stdout = st.stdout ++ (m ++ "\n") := by
  rw [log_success w st m h1 h2]
  rfl

/-- C3: after `init(p, INFO)`, one call `info("hello")` appends exactly one
line to the configured file, and that line matches
`^\[\d\x7b2\x7d:\d\x7b2\x7d:\d\x7b2\x7d\] \[INFO\] \[.*\] hello$`. -/
theorem c3_info_line_format (w : World) (st : LogState) (p : String)
    (hhr : w.time.hour < 24) (hmin : w.time.minute < 60) (hsec : w.time.second < 60)
    (hth : '\n' ∉ (currentThreadName w).data)
    (hopen : current_time_fmt w p ∉ w.failingPaths)
    (hwr : w.writeFails = false) :
    ∃ L : String,
      fileContent (info w (init w st p INFO) "hello") (current_time_fmt w p)
          = fileContent (init w st p INFO) (current_time_fmt w p) ++ (L ++ "\n")
        ∧ countNL L = 0
        ∧ matchesInfoHello L := by
  set st1 := init w st p INFO with hst1
  have hpath : get_log_path st1 = current_time_fmt w p := by
    unfold get_log_path
    rw [hst1, init_envPath]
  have hgate : get_log_level st1 ≥ INFO := by
    rw [hst1, get_log_level_init w st p INFO (by decide)]
  have hinfo : info w st1 "hello" = log w st1 (record w INFO "hello") := by
    unfold info log_with_level
    rw [if_pos hgate]
  refine ⟨record w INFO "hello", ?_, ?_, ?_⟩
  · rw [hinfo, ← hpath, fileContent_log_success w st1 _ (by rw [hpath]; exact hopen) hwr]
  · exact countNL_record w INFO "hello" (by omega) (by omega) (by omega)
      (List.count_eq_zero.mpr hth) (by decide)
  · refine ⟨pad2 w.time.hour, pad2 w.time.minute, pad2 w.time.second, currentThreadName w,
      pad2_twoDigit _ (by omega), pad2_twoDigit _ (by omega), pad2_twoDigit _ (by omega),
      hth, ?_⟩
    apply String.ext
    unfold record
    rw [timeT_eq]
    simp [String.data_append, List.append_assoc, INFO, level_to_string]

/-- Witness for C3 at the sample world (06:27:44, thread `main`) and the
pattern `app.log`. -/
theorem c3_info_line_format_witness :
    sampleWorld.time.hour < 24 ∧ sampleWorld.time.minute < 60
      ∧ sampleWorld.time.second < 60
      ∧ '\n' ∉ (currentThreadName sampleWorld).data
      ∧ current_time_fmt sampleWorld "app.log" ∉ sampleWorld.failingPaths
      ∧ sampleWorld.writeFails = false
      ∧ (∃ L : String,
          fileContent (info sampleWorld (init sampleWorld emptyState "app.log" INFO) "hello")
              (current_time_fmt sampleWorld "app.log")
            = fileContent (init sampleWorld emptyState "app.log" INFO)
                (current_time_fmt sampleWorld "app.log") ++ (L ++ "\n")
          ∧ countNL L = 0
          ∧ matchesInfoHello L) :=
  ⟨by decide, by decide, by decide, by decide, by decide, by decide,
    c3_info_line_format sampleWorld emptyState "app.log" (by decide) (by decide) (by decide)
      (by decide) (by decide) (by decide)⟩

theorem runCalls_spec (calls : List (World × Nat × String)) :
    ∀ st : LogState,
      (∀ x ∈ calls,
        get_log_path st ∉ x.1.failingPaths ∧ x.1.writeFails = false
          ∧ x.2.1 ≤ get_log_level st ∧ countNL (record x.1 x.2.1 x.2.2) = 0) →
      fileContent (runCalls st calls) (get_log_path st)
          = fileContent st (get_log_path st) ++ chunkOf calls
        ∧ (runCalls st calls).stdout = st.stdout ++ chunkOf calls
        ∧ countNL (chunkOf calls) = calls.length := by
  induction calls with
  | nil =>
    intro st _
    exact ⟨(String.append_empty _).symm, (String.append_empty _).symm, rfl⟩
  | cons x rest ih =>
    intro st hcalls
    obtain ⟨hopen, hwrf, hlvl, hrec⟩ := hcalls x (List.mem_cons_self x rest)
    have hstep : log_with_level x.1 st x.2.2 x.2.1
        = log x.1 st (record x.1 x.2.1 x.2.2) := by
      unfold log_with_level
      rw [if_pos hlvl]
    have hpath2 : get_log_path (log_with_level x.1 st x.2.2 x.2.1) = get_log_path st := by
      rw [hstep, get_log_path_log]
    have hlev2 : get_log_level (log_with_level x.1 st x.2.2 x.2.1) = get_log_level st := by
      rw [hstep, get_log_level_log]
    have hrest : ∀ y ∈ rest,
        get_log_path (log_with_level x.1 st x.2.2 x.2.1) ∉ y.1.failingPaths
          ∧ y.1.writeFails = false
          ∧ y.2.1 ≤ get_log_level (log_with_level x.1 st x.2.2 x.2.1)
          ∧ countNL (record y.1 y.2.1 y.2.2) = 0 := by
      intro y hy
      obtain ⟨a, b, c, d⟩ := hcalls y (List.mem_cons_of_mem x hy)
      exact ⟨by rw [hpath2]; exact a, b, by rw [hlev2]; exact c, d⟩
    obtain ⟨ih1, ih2, ih3⟩ := ih (log_with_level x.1 st x.2.2 x.2.1) hrest
    rw [hpath2] at ih1
    have hfc : fileContent (log_with_level x.1 st x.2.2 x.2.1) (get_log_path st)
        = fileContent st (get_log_path st) ++ (record x.1 x.2.1 x.2.2 ++ "\n") := by
      rw [hstep, fileContent_log_success x.1 st _ hopen hwrf]
    have hso : (log_with_level x.1 st x.2.2 x.2.1).stdout
        = st.stdout ++ (record x.1 x.2.1 x.2.2 ++ "\n") := by
      rw [hstep, log_stdout_success x.1 st _ hopen hwrf]
    have hrun : runCalls st (x :: rest)
        = runCalls (log_with_level x.1 st x.2.2 x.2.1) rest := rfl
    have hnl : countNL "\n" = 1 := rfl
    refine ⟨?_, ?_, ?_⟩
    · rw [hrun, ih1, hfc, String.append_assoc]
      rfl
    · rw [hrun, ih2, hso, String.append_assoc]
      rfl
    · show countNL ((record x.1 x.2.1 x.2.2 ++ "\n") ++ chunkOf rest) = rest.length + 1
      rw [countNL_append, countNL_append, hrec, ih3, hnl]
      omega

/-- C6 (counterexample to the claim as stated): a single successful `log`
call whose message contains a newline appends two lines to the file, not
one. -/
theorem c6_counterexample :
    countNL (fileContent (log sampleWorld sampleState "a\nb") "a.log")
        = countNL (fileContent sampleState "a.log") + 2
      ∧ ¬ countNL (fileContent (log sampleWorld sampleState "a\nb") "a.log")
          = countNL (fileContent sampleState "a.log") + 1 := by
  decide

/-- C6 as amended: when every formatted record is newline-free, a sequence
of N leveled calls that all pass the threshold and whose I/O succeeds
appends exactly the N records to the file in call order — N new lines in
the file and N new lines on stdout, one of each per call. -/
theorem c6_lines_round_trip (st : LogState) (calls : List (World × Nat × String))
    (hcalls : ∀ x ∈ calls,
      get_log_path st ∉ x.1.failingPaths ∧ x.1.writeFails = false
        ∧ x.2.1 ≤ get_log_level st ∧ countNL (record x.1 x.2.1 x.2.2) = 0) :
    fileContent (runCalls st calls) (get_log_path st)
        = fileContent st (get_log_path st) ++ chunkOf calls
      ∧ (runCalls st calls).stdout = st.stdout ++ chunkOf calls
      ∧ countNL (chunkOf calls) = calls.length
      ∧ countNL (fileContent (runCalls st calls) (get_log_path st))
          = countNL (fileContent st (get_log_path st)) + calls.length := by
  obtain ⟨h1, h2, h3⟩ := runCalls_spec calls st hcalls
  exact ⟨h1, h2, h3, by rw [h1, countNL_append, h3]⟩

/-- Witness for C6 as amended: two passing calls append two lines. -/
theorem c6_lines_round_trip_witness :
    (∀ x ∈ [(sampleWorld, 3, "one"), (sampleWorld, 1, "two")],
      get_log_path sampleState ∉ x.1.failingPaths ∧ x.1.writeFails = false
        ∧ x.2.1 ≤ get_log_level sampleState ∧ countNL (record x.1 x.2.1 x.2.2) = 0)
      ∧ (fileContent (runCalls sampleState [(sampleWorld, 3, "one"), (sampleWorld, 1, "two")])
            (get_log_path sampleState)
          = fileContent sampleState (get_log_path sampleState)
            ++ chunkOf [(sampleWorld, 3, "one"), (sampleWorld, 1, "two")]
        ∧ (runCalls sampleState [(sampleWorld, 3, "one"), (sampleWorld, 1, "two")]).stdout
          = sampleState.stdout ++ chunkOf [(sampleWorld, 3, "one"), (sampleWorld, 1, "two")]
        ∧ countNL (chunkOf [(sampleWorld, 3, "one"), (sampleWorld, 1, "two")])
          = [(sampleWorld, 3, "one"), (sampleWorld, 1, "two")].length
        ∧ countNL (fileContent
              (runCalls sampleState [(sampleWorld, 3, "one"), (sampleWorld, 1, "two")])
              (get_log_path sampleState))
          = countNL (fileContent sampleState (get_log_path sampleState))
            + [(sampleWorld, 3, "one"), (sampleWorld, 1, "two")].length) :=
  ⟨by decide,
    c6_lines_round_trip sampleState [(sampleWorld, 3, "one"), (sampleWorld, 1, "two")]
      (by decide)⟩

end SeLogger
